import Mathlib

/-!
Shallow embedding of the avatar-agent backend: the Express handlers in
`src/server.js`, `src/unnamed/part_000` and `src/unnamed/part_001`.

External SaaS calls (OpenAI chat completions, Pinecone retrieval,
ElevenLabs TTS, Simli avatar sessions) are modelled as oracles: the
handler receives a record of functions whose results are `Except.ok`
payloads or `Except.error` messages; an `Except.error` result stands for
a thrown/rejected promise in the JS source, which propagates to the
surrounding `catch` block.  Each handler returns its HTTP response
together with the post-request value of the module-global
`conversationHistory`, and (for the `/agent/speak` handler) a trace of
which kinds of external calls were issued, so that statements such as
"no language-model call is made" can be expressed.
-/

namespace AvatarAgent

/-- One conversation turn as stored in the module-global `conversationHistory`. -/
structure Turn where
  role : String
  content : String
deriving DecidableEq

/-- JS `Array.prototype.slice(-n)` on an array: keeps the last `n` elements
(the whole array when it is shorter than `n`). -/
def sliceLast {α : Type} (n : Nat) (l : List α) : List α :=
  l.drop (l.length - n)

/-- `src/server.js` lines 149-150 (`/agent/present`): push the assistant turn
`(Florent presented): speech` onto `conversationHistory`.  No trimming happens
on this path. -/
def presentSave (history : List Turn) (speech : String) : List Turn :=
  history ++ [⟨"assistant", "(Florent presented): " ++ speech⟩]

/-- `src/server.js` lines 238-243 (`/agent/interact`): push the user turn and
the assistant turn, then `if (conversationHistory.length > 10)
conversationHistory = conversationHistory.slice(-10)`. -/
def interactSave (history : List Turn) (user_question answer : String) : List Turn :=
  let h := history ++ [⟨"user", user_question⟩, ⟨"assistant", answer⟩]
  if h.length > 10 then sliceLast 10 h else h

/-- `src/unnamed/part_001` lines 199-203 (`/agent/speak`): push the assistant
turn, then `if (conversationHistory.length > 6) conversationHistory =
conversationHistory.slice(-6)`. -/
def speakSave (history : List Turn) (finalScript : String) : List Turn :=
  let h := history ++ [⟨"assistant", finalScript⟩]
  if h.length > 6 then sliceLast 6 h else h

/-- Eleven consecutive `/agent/present` saves (server.js variant) starting
from an empty history. -/
def presentFlood : List Turn :=
  (List.replicate 11 ("slide")).foldl presentSave []

/-- A ten-turn history, already at the `/agent/interact` cap. -/
def tenTurns : List Turn := List.replicate 10 ⟨"assistant", "x"⟩

/-- One part of a multi-part chat message (`src/unnamed/part_001` PRESENT
user content). -/
inductive ContentPart where
  | textPart (s : String)
  | imageUrl (url : String)
deriving DecidableEq

/-- The content of a chat message: plain text, or a text/image part list. -/
inductive ChatContent where
  | text (s : String)
  | parts (ps : List ContentPart)
deriving DecidableEq

/-- A chat message as sent to the OpenAI chat-completions API. -/
structure ChatMsg where
  role : String
  content : ChatContent
deriving DecidableEq

/-- Spreading a stored conversation turn into the outgoing message array
(`...conversationHistory`). -/
def turnToMsg (t : Turn) : ChatMsg :=
  ⟨t.role, ChatContent.text t.content⟩

/-! ### Prompt templates of `src/unnamed/part_001` (`/agent/speak`) -/

/-- PRESENT style instruction for `slideIndex === 1` (part_001 line 124). -/
def openingInstruction : String :=
  "Start with: \"Hi, I'm Elsa from PrimEx.\" Give a warm welcome, introduce the title visible on the slide, and add a 1-sentence teaser."

/-- PRESENT style instruction for `slideIndex === totalSlides` (part_001 line 126). -/
def closingInstruction : String :=
  "Summarize the key takeaway. Thank the audience. Ask if there are questions."

/-- PRESENT style instruction for every other slide (part_001 lines 128-132). -/
def transitionInstruction : String :=
  "\n                - Explain the visual content (charts, bullets, images).\n                - Use transition phrases like \"If you look at this graph...\" or \"As shown here...\".\n                - Keep it engaging.\n                "

/-- The `styleInstruction` dispatch of part_001 lines 120-133:
`if (slideIndex === 1) ... else if (slideIndex === totalSlides) ... else ...`. -/
def styleInstruction (slideIndex totalSlides : Nat) : String :=
  if slideIndex = 1 then openingInstruction
  else if slideIndex = totalSlides then closingInstruction
  else transitionInstruction

/-- Template text of the PRESENT system message before `${styleInstruction}`. -/
def presChunk1 : String :=
  "You are **Elsa**, the Lead Presenter for **PrimEx** and part of the PrimEx team. \n                    You can SEE the slide the user is looking at. \n                    "

/-- Template text of the PRESENT system message after `${styleInstruction}`. -/
def presChunk2 : String :=
  "\n                    RULES: Be punchy (Max 3 sentences). Speak as \"we\". \n                    At the end of your explanation, occasionally ask a quick check-in like \"Does that make sense?\""

/-- The assembled PRESENT system instruction (part_001 lines 138-142). -/
def presentSystemContent (slideIndex totalSlides : Nat) : String :=
  presChunk1 ++ styleInstruction slideIndex totalSlides ++ presChunk2

/-- The PRESENT user text part (part_001 line 147). -/
def presentUserText (slideIndex : Nat) (text : String) : String :=
  "I am showing Slide " ++ toString slideIndex ++ ". The extracted text is: \"" ++ text ++ "\". Present this slide based on the image provided."

/-- The PRESENT message array (part_001 lines 135-151): system message, then a
multi-part user message holding the slide text and the slide image. -/
def presentMessages (slideIndex totalSlides : Nat) (text image : String) : List ChatMsg :=
  [⟨"system", ChatContent.text (presentSystemContent slideIndex totalSlides)⟩,
   ⟨"user", ChatContent.parts [ContentPart.textPart (presentUserText slideIndex text), ContentPart.imageUrl image]⟩]

/-- ANSWER system template before `${pineconeData}` (part_001 lines 168-169). -/
def ansChunk1 : String :=
  "You are Elsa. You were interrupted by a question.\n                    internal_knowledge: \""

/-- ANSWER system template between `${pineconeData}` and `${context}`. -/
def ansChunk2 : String :=
  "\"\n                    slide_context: \""

/-- ANSWER system template after `${context}` (part_001 lines 170-176). -/
def ansChunk3 : String :=
  "\"\n                    \n                    TASK:\n                    1. Answer the user's question clearly and briefly.\n                    2. IMMEDIATELY after answering, ask a short check-in question to see if they are done.\n                    Example: \"The cost is $5. Does that help?\" or \"We ship globally. Any other questions on that?\"\n                    "

/-- The assembled ANSWER system instruction (part_001 lines 166-177): the
retrieved knowledge is interpolated before the slide context. -/
def answerSystemContent (pineconeData context : String) : String :=
  ansChunk1 ++ pineconeData ++ ansChunk2 ++ context ++ ansChunk3

/-- The ANSWER message array (part_001 lines 165-180): system message, then
`...conversationHistory`, then the new user utterance. -/
def answerMessages (pineconeData context : String) (history : List Turn) (text : String) : List ChatMsg :=
  ⟨"system", ChatContent.text (answerSystemContent pineconeData context)⟩ ::
    (history.map turnToMsg ++ [⟨"user", ChatContent.text text⟩])

/-! ### Prompt templates of `src/server.js` -/

/-- `/agent/present` system message (server.js lines 133-140). -/
def florentPresentSystem : String :=
  "You are **Florent**, a senior team member and representative of **PrimEx**. \n                    You are currently presenting a slide deck to an audience.\n                    \n                    INSTRUCTIONS:\n                    - Summarize the slide text provided by the user in 2-3 engaging sentences.\n                    - Always speak as \"we\" (representing the company).\n                    - Be professional, confident, and clear.\n                    - Do not say \"Next slide\" yet, just cover the content."

/-- `/agent/present` message array (server.js lines 130-143). -/
def florentPresentMessages (slide_text : String) : List ChatMsg :=
  [⟨"system", ChatContent.text florentPresentSystem⟩, ⟨"user", ChatContent.text slide_text⟩]

/-- `/agent/interact` system template before `${companyInfo}` (server.js lines 202-207). -/
def intChunk1 : String :=
  "You are **Florent**, a senior representative and core team member of **PrimEx**. \n                You are currently giving a presentation, but the user has interrupted you with a question.\n\n                ### KNOWLEDGE SOURCES (In order of priority):\n                1. **YOUR BRAIN (Internal Database):** \n                \"\"\""

/-- `/agent/interact` system template between `${companyInfo}` and `${slide_context}`. -/
def intChunk2 : String :=
  "\"\"\"\n                *(Use this first. If the answer is here, ignore the slide.)*\n\n                2. **CURRENT SLIDE:** \n                \"\"\""

/-- `/agent/interact` system template after `${slide_context}` (server.js lines 211-219). -/
def intChunk3 : String :=
  "\"\"\"\n                *(Use this only if the database doesn't have the answer.)*\n\n                ### INSTRUCTIONS:\n                - **Identity:** Your name is Florent. Always speak as \"we\" (PrimEx).\n                - **Tone:** Professional, helpful, and knowledgeable.\n                - **Flow:** Answer the question concisely. \n                - **Closing:** End your answer with a subtle transition back to the presentation (e.g., \"I hope that clears that up. Moving on...\" or \"That is a key part of our strategy.\").\n                "

/-- The assembled `/agent/interact` system instruction (server.js lines 200-219). -/
def interactSystemContent (companyInfo slide_context : String) : String :=
  intChunk1 ++ companyInfo ++ intChunk2 ++ slide_context ++ intChunk3

/-- User-content template around `${user_question}` (server.js line 224), left part. -/
def qChunk1 : String := "Question: \""

/-- User-content template around `${user_question}` (server.js line 224), right part. -/
def qChunk2 : String := "\""

/-- `/agent/interact` message array (server.js lines 199-226): system message,
then `...conversationHistory`, then the new user question. -/
def interactMessages (companyInfo slide_context : String) (history : List Turn) (user_question : String) : List ChatMsg :=
  ⟨"system", ChatContent.text (interactSystemContent companyInfo slide_context)⟩ ::
    (history.map turnToMsg ++ [⟨"user", ChatContent.text (qChunk1 ++ user_question ++ qChunk2)⟩])

/-! ### Prompt templates of `src/unnamed/part_000` (`/agent/present`) -/

/-- part_000 `/agent/present` system message (line 133). -/
def part000System : String := "You are a helpful, concise presenter."

/-- part_000 `/agent/present` user prompt (line 129). -/
def part000Prompt (slide_text : String) : String :=
  "You are an engaging presenter. Summarize this slide in 3-5 spoken sentences. Be concise, friendly, and avoid reading every bullet. Slide text: " ++ slide_text

/-- part_000 `/agent/present` message array (lines 132-135). -/
def part000Messages (slide_text : String) : List ChatMsg :=
  [⟨"system", ChatContent.text part000System⟩,
   ⟨"user", ChatContent.text (part000Prompt slide_text)⟩]

/-! ### The `/agent/speak` handler of `src/unnamed/part_001` -/

/-- Kinds of external calls a handler can issue (used in the call trace). -/
inductive ExtCall where
  | llm
  | ttsCall
deriving DecidableEq

/-- Oracle results for the external services consulted by `/agent/speak`.
`shouldAskDecision` abstracts the SHOULD_ASK chat completion plus
`JSON.parse` plus the `!!decision.ask` coercion; `nextMoveDecision` the
DECIDE_NEXT_MOVE completion plus parse; `chatCompletion` the gpt-4o chat
call on an explicit message array; `knowledge` is `getCompanyKnowledge`
(which never throws: every internal failure returns `""`); `tts` the
ElevenLabs call on the final script, producing base64 audio. -/
structure SpeakOracle where
  shouldAskDecision : Except String Bool
  nextMoveDecision : Except String String
  chatCompletion : List ChatMsg → Except String String
  knowledge : String → String
  tts : String → Except String String

/-- The request body fields used by `/agent/speak` (part_001 line 49). -/
structure SpeakRequest where
  type : String
  text : String
  context : String
  slideIndex : Nat
  totalSlides : Nat
  image : String

/-- The HTTP response of `/agent/speak`: the SHOULD_ASK JSON, the
DECIDE_NEXT_MOVE JSON, the `{ text, audio }` success body, or the 500
error body produced by the catch block. -/
inductive SpeakResponse where
  | askJson (ask : Bool)
  | moveJson (action : String)
  | speech (text : String) (audio : String)
  | error (msg : String)
deriving DecidableEq

/-- Result of one `/agent/speak` request: the response, the post-request
`conversationHistory`, and the trace of external calls issued. -/
structure SpeakResult where
  response : SpeakResponse
  history : List Turn
  calls : List ExtCall

/-- The `/agent/speak` handler (part_001 lines 47-228).  The two
classification kinds return immediately; otherwise the final script is
computed per kind (empty for an unrecognized kind: the JS `let finalScript
= ""` survives the fall-through), memory is saved unless the kind is
TTS_ONLY, and the ElevenLabs call runs on the final script.  A failing
external call aborts to the catch block (a 500 `error` response), but any
`conversationHistory` mutation already performed persists. -/
def agentSpeak (o : SpeakOracle) (req : SpeakRequest) (history : List Turn) : SpeakResult :=
  if req.type = "SHOULD_ASK" then
    match o.shouldAskDecision with
    | Except.ok ask => ⟨SpeakResponse.askJson ask, history, [ExtCall.llm]⟩
    | Except.error e => ⟨SpeakResponse.error e, history, [ExtCall.llm]⟩
  else if req.type = "DECIDE_NEXT_MOVE" then
    match o.nextMoveDecision with
    | Except.ok action => ⟨SpeakResponse.moveJson action, history, [ExtCall.llm]⟩
    | Except.error e => ⟨SpeakResponse.error e, history, [ExtCall.llm]⟩
  else
    let step : Except (String × List ExtCall) (String × List ExtCall) :=
      if req.type = "PRESENT" then
        match o.chatCompletion (presentMessages req.slideIndex req.totalSlides req.text req.image) with
        | Except.ok s => Except.ok (s, [ExtCall.llm])
        | Except.error e => Except.error (e, [ExtCall.llm])
      else if req.type = "ANSWER" then
        match o.chatCompletion (answerMessages (o.knowledge req.text) req.context history req.text) with
        | Except.ok s => Except.ok (s, [ExtCall.llm])
        | Except.error e => Except.error (e, [ExtCall.llm])
      else if req.type = "TTS_ONLY" then Except.ok (req.text, [])
      else Except.ok ("", [])
    match step with
    | Except.error (e, calls) => ⟨SpeakResponse.error e, history, calls⟩
    | Except.ok (finalScript, calls) =>
      let history2 := if req.type = "TTS_ONLY" then history else speakSave history finalScript
      match o.tts finalScript with
      | Except.ok audio => ⟨SpeakResponse.speech finalScript audio, history2, calls ++ [ExtCall.ttsCall]⟩
      | Except.error e => ⟨SpeakResponse.error e, history2, calls ++ [ExtCall.ttsCall]⟩

/-! ### The `/agent/present` and `/agent/interact` handlers of `src/server.js`,
and the `/agent/present` handler of `src/unnamed/part_000` -/

/-- Oracles for a present-style handler: the chat completion (for server.js,
`callOpenAIChat` viewed from the handler: it either returns content or
throws) and the Simli `auto/start/configurable` call on the generated
speech. -/
structure PresentOracle where
  chat : List ChatMsg → Except String String
  simli : String → Except String String

/-- Oracles for `/agent/interact`: Pinecone retrieval (never throws), the
chat completion, and the Simli call on the generated answer. -/
structure InteractOracle where
  knowledge : String → String
  chat : List ChatMsg → Except String String
  simli : String → Except String String

/-- Response of the narration/answer handlers: a 2xx body carrying the
generated text and the Simli payload (`none` models JSON `null`), or a
4xx/5xx error body. -/
inductive AgentResponse where
  | success (text : String) (simli : Option String)
  | failure (msg : String)
deriving DecidableEq

/-- `src/server.js` `/agent/present` (lines 123-178): generate the speech,
push it to memory with the `(Florent presented): ` prefix (no trimming),
then attempt the Simli call inside an inner try/catch — a Simli failure
only sets the payload to `null` and the request still succeeds. -/
def agentPresent (o : PresentOracle) (slide_text : String) (history : List Turn) : AgentResponse × List Turn :=
  match o.chat (florentPresentMessages slide_text) with
  | Except.error e => (AgentResponse.failure e, history)
  | Except.ok speech =>
    let history2 := presentSave history speech
    match o.simli speech with
    | Except.ok d => (AgentResponse.success speech (some d), history2)
    | Except.error _ => (AgentResponse.success speech none, history2)

/-- `src/server.js` `/agent/interact` (lines 183-271): retrieve knowledge,
generate the answer, save user+assistant turns (trimming to the last 10),
then attempt the Simli call inside an inner try/catch. -/
def agentInteract (o : InteractOracle) (user_question slide_context : String) (history : List Turn) : AgentResponse × List Turn :=
  let companyInfo := o.knowledge user_question
  match o.chat (interactMessages companyInfo slide_context history user_question) with
  | Except.error e => (AgentResponse.failure e, history)
  | Except.ok answer =>
    let history2 := interactSave history user_question answer
    match o.simli answer with
    | Except.ok d => (AgentResponse.success answer (some d), history2)
    | Except.error _ => (AgentResponse.success answer none, history2)

/-- `src/unnamed/part_000` `/agent/present` (lines 123-169): generate the
speech (defaulting when the completion content trims to empty), then call
Simli with **no** inner try/catch: a Simli failure propagates to the outer
catch and the whole request fails. -/
def part000Present (o : PresentOracle) (slide_text : String) : AgentResponse :=
  match o.chat (part000Messages slide_text) with
  | Except.error e => AgentResponse.failure e
  | Except.ok raw =>
    let speech := if raw.trim = "" then "Here's your slide." else raw.trim
    match o.simli speech with
    | Except.ok d => AgentResponse.success speech (some d)
    | Except.error e => AgentResponse.failure e

/-! ### The model-fallback helper `callOpenAIChat` of `src/server.js` -/

/-- The ordered candidate list of server.js line 33. -/
def candidateModels : List String := ["gpt-4o-mini", "gpt-4o", "gpt-3.5-turbo"]

/-- The fallback loop of server.js lines 34-48, instrumented with the list
of models actually attempted (in order).  `attempt m` is the
`openai.chat.completions.create` call with model `m`; `lastErr` is the
running last error.  A success returns immediately; exhaustion throws
`lastErr` (or the fresh all-failed error when the list was empty). -/
def tryModels (attempt : String → Except String String) :
    List String → Option String → Except String (String × String) × List String
  | [], lastErr => (Except.error (lastErr.getD ("All OpenAI model calls failed")), [])
  | m :: ms, _lastErr =>
    match attempt m with
    | Except.ok c => (Except.ok (c, m), [m])
    | Except.error e =>
      let r := tryModels attempt ms (some e)
      (r.1, m :: r.2)

/-- `callOpenAIChat` of server.js lines 31-49: the configuration guard, then
the fallback loop over `candidateModels`. -/
def callOpenAIChat (configured : Bool) (attempt : String → Except String String) :
    Except String (String × String) × List String :=
  if configured then tryModels attempt candidateModels none
  else (Except.error ("OpenAI not configured"), [])

/-! ### Concrete fixtures used by witnesses and counterexamples -/

/-- An oracle whose external calls all succeed. -/
def okOracle : SpeakOracle :=
  ⟨Except.ok true, Except.ok ("RESUME"), fun _ => Except.ok ("generated"), fun _ => "", fun s => Except.ok ("audio:" ++ s)⟩

/-- An oracle whose ElevenLabs TTS call fails. -/
def ttsFailOracle : SpeakOracle :=
  ⟨Except.ok true, Except.ok ("RESUME"), fun _ => Except.ok ("generated"), fun _ => "", fun _ => Except.error ("tts down")⟩

/-- An oracle whose chat-completion call fails. -/
def chatFailOracle : SpeakOracle :=
  ⟨Except.ok true, Except.ok ("RESUME"), fun _ => Except.error ("model down"), fun _ => "", fun s => Except.ok ("audio:" ++ s)⟩

/-- A request with an unrecognized `type` value. -/
def unknownReq : SpeakRequest := ⟨"SPEAK", "hello", "", 2, 5, ""⟩

/-- A present-handler oracle whose chat call succeeds and whose Simli call fails. -/
def simliDownOracle : PresentOracle :=
  ⟨fun _ => Except.ok ("Nice slide."), fun _ => Except.error ("simli down")⟩

/-- An interact-handler oracle whose chat call succeeds and whose Simli call fails. -/
def simliDownInteractOracle : InteractOracle :=
  ⟨fun _ => "", fun _ => Except.ok ("It costs five."), fun _ => Except.error ("simli down")⟩

/-- An interact-handler oracle whose chat call fails. -/
def chatFailInteractOracle : InteractOracle :=
  ⟨fun _ => "", fun _ => Except.error ("model down"), fun _ => Except.ok ("session")⟩

/-- A model-attempt oracle that fails on the first candidate only. -/
def flakyAttempt : String → Except String String :=
  fun m => if m = "gpt-4o-mini" then Except.error ("rate limited") else Except.ok ("hello")

/-! ### Helper lemmas -/

theorem sliceLast_length_le {α : Type} (n : Nat) (l : List α) : (sliceLast n l).length ≤ n := by
  simp only [sliceLast, List.length_drop]
  omega

theorem sliceLast_of_length_le {α : Type} (n : Nat) (l : List α) (hl : l.length ≤ n) :
    sliceLast n l = l := by
  simp [sliceLast, Nat.sub_eq_zero_of_le hl]

theorem sliceLast_length_of_le {α : Type} (n : Nat) (l : List α) (hl : n ≤ l.length) :
    (sliceLast n l).length = n := by
  simp only [sliceLast, List.length_drop]
  omega

theorem getLast_cons_concat {α : Type} (x a : α) (l : List α) :
    (x :: (l ++ [a])).getLast? = some a := by
  rw [← List.cons_append]
  exact List.getLast?_concat _

/-! ### Claim theorems -/

/-- Claim C1 (corrected), counterexample to the claim as stated: in the
`src/server.js` variant (cap 10) a sequence of eleven `/agent/present`
appends leaves the session at length 11, exceeding the cap, because the
present handler appends without trimming. -/
theorem present_save_exceeds_cap :
    presentFlood.length = 11 ∧ 10 < presentFlood.length := by decide

/-- Claim C1 (amended): for the appends that carry a trimming step — the
`/agent/interact` save of server.js (cap 10) and the `/agent/speak` save of
part_001 (cap 6) — after each append the session equals `sliceLast cap` of
the appended sequence, i.e. exactly the most recently appended cap-many
turns in their original order (oldest evicted first, nothing evicted while
the cap is respected), and its length never exceeds the cap (hitting it
exactly once the appended sequence overflows).  The `/agent/present` save of
server.js appends without trimming, so the invariant does not extend to it. -/
theorem interact_and_speak_saves_keep_cap (h : List Turn) (u a s : String) :
    interactSave h u a = sliceLast 10 (h ++ [⟨"user", u⟩, ⟨"assistant", a⟩]) ∧
    (interactSave h u a).length ≤ 10 ∧
    (10 < h.length + 2 → (interactSave h u a).length = 10) ∧
    (h.length + 2 ≤ 10 → interactSave h u a = h ++ [⟨"user", u⟩, ⟨"assistant", a⟩]) ∧
    speakSave h s = sliceLast 6 (h ++ [⟨"assistant", s⟩]) ∧
    (speakSave h s).length ≤ 6 ∧
    (6 < h.length + 1 → (speakSave h s).length = 6) ∧
    (h.length + 1 ≤ 6 → speakSave h s = h ++ [⟨"assistant", s⟩]) := by
  have hsl : interactSave h u a = sliceLast 10 (h ++ [⟨"user", u⟩, ⟨"assistant", a⟩]) := by
    unfold interactSave
    dsimp only
    split
    · rfl
    · next hc => exact (sliceLast_of_length_le _ _ (by omega)).symm
  have hsp : speakSave h s = sliceLast 6 (h ++ [⟨"assistant", s⟩]) := by
    unfold speakSave
    dsimp only
    split
    · rfl
    · next hc => exact (sliceLast_of_length_le _ _ (by omega)).symm
  refine ⟨hsl, ?_, ?_, ?_, hsp, ?_, ?_, ?_⟩
  · rw [hsl]
    exact sliceLast_length_le _ _
  · intro hover
    rw [hsl]
    apply sliceLast_length_of_le
    simp
    omega
  · intro hle
    rw [hsl]
    apply sliceLast_of_length_le
    simp
    omega
  · rw [hsp]
    exact sliceLast_length_le _ _
  · intro hover
    rw [hsp]
    apply sliceLast_length_of_le
    simp
    omega
  · intro hle
    rw [hsp]
    apply sliceLast_of_length_le
    simp
    omega

/-- Claim C1 witness: the amended theorem applied at concrete histories, one
below the cap (nothing evicted) and one already at the cap (the save lands
on exactly ten retained turns). -/
theorem interact_and_speak_saves_keep_cap_witness :
    interactSave [] ("q") ("a") = [] ++ [⟨"user", ("q")⟩, ⟨"assistant", ("a")⟩] ∧
    (interactSave tenTurns ("q") ("a")).length = 10 :=
  ⟨(interact_and_speak_saves_keep_cap [] ("q") ("a") ("s")).2.2.2.1 (by decide),
   (interact_and_speak_saves_keep_cap tenTurns ("q") ("a") ("s")).2.2.1 (by decide)⟩

/-- Claim C2 (code bug): a `/agent/speak` request whose `type` is not one of
the recognized variants is not rejected; the handler falls through every
branch with `finalScript = ""`, saves an empty assistant turn into the
session, calls TTS on the empty string, and returns a 200 success body —
contradicting the spec's requirement of a BadRequest-class rejection. -/
theorem unrecognized_type_falls_through :
    (agentSpeak okOracle unknownReq []).response = SpeakResponse.speech ("") ("audio:") ∧
    (agentSpeak okOracle unknownReq []).history = [⟨"assistant", ""⟩] ∧
    (agentSpeak okOracle unknownReq []).calls = [ExtCall.ttsCall] := by decide

/-- Claim C3 (corrected), counterexample to the claim as stated: in the
`src/unnamed/part_000` variant the `/agent/present` Simli call is not
wrapped in an inner try/catch, so a sidecar failure after successful text
generation fails the whole request instead of returning the text. -/
theorem part000_simli_failure_fatal :
    part000Present simliDownOracle ("slide one") = AgentResponse.failure ("simli down") ∧
    part000Present simliDownOracle ("slide one") ≠ AgentResponse.success ("Nice slide.") none := by
  constructor
  · rfl
  · decide

/-- Claim C3 (amended): in the `src/server.js` variant, a narration
(`/agent/present`) or answer (`/agent/interact`) request whose text
generation succeeds still returns a success body carrying the generated
text with a `null` Simli payload when the Simli sidecar call fails; the
memory save is also unaffected.  In the part_000 variant the sidecar
failure is fatal to the request. -/
theorem serverjs_simli_failure_nonfatal (po : PresentOracle) (io : InteractOracle)
    (st q sc speech answer e1 e2 : String) (h hist : List Turn)
    (hp : po.chat (florentPresentMessages st) = Except.ok speech)
    (hps : po.simli speech = Except.error e1)
    (hi : io.chat (interactMessages (io.knowledge q) sc hist q) = Except.ok answer)
    (his : io.simli answer = Except.error e2) :
    agentPresent po st h = (AgentResponse.success speech none, presentSave h speech) ∧
    agentInteract io q sc hist = (AgentResponse.success answer none, interactSave hist q answer) := by
  simp [agentPresent, agentInteract, hp, hps, hi, his]

/-- Claim C3 witness: the amended theorem at concrete failing-Simli oracles. -/
theorem serverjs_simli_failure_nonfatal_witness :
    agentPresent simliDownOracle ("slide one") [] =
      (AgentResponse.success ("Nice slide.") none, presentSave [] ("Nice slide.")) ∧
    agentInteract simliDownInteractOracle ("price?") ("ctx") [] =
      (AgentResponse.success ("It costs five.") none, interactSave [] ("price?") ("It costs five.")) :=
  serverjs_simli_failure_nonfatal simliDownOracle simliDownInteractOracle
    ("slide one") ("price?") ("ctx") ("Nice slide.") ("It costs five.")
    ("simli down") ("simli down") [] [] rfl rfl rfl rfl

/-- Claim C4: for every PRESENT request the assembled system instruction is
chosen by slide position — slide index 1 selects the opening/welcome
instruction, slide index equal to the total slide count (when not slide 1)
selects the closing/summary/ask-for-questions instruction, and any other
index selects the transition/explanatory instruction, each embedded in the
fixed system template. -/
theorem present_instruction_by_position (i n : Nat) :
    (i = 1 → presentSystemContent i n = presChunk1 ++ openingInstruction ++ presChunk2) ∧
    (i ≠ 1 → i = n → presentSystemContent i n = presChunk1 ++ closingInstruction ++ presChunk2) ∧
    (i ≠ 1 → i ≠ n → presentSystemContent i n = presChunk1 ++ transitionInstruction ++ presChunk2) := by
  refine ⟨?_, ?_, ?_⟩ <;> intro h1 <;> try intro h2
  · simp [presentSystemContent, styleInstruction, h1]
  · subst h2
    simp [presentSystemContent, styleInstruction, h1]
  · simp [presentSystemContent, styleInstruction, h1, h2]

/-- Claim C4 witness: at slide 1 of 5 the opening instruction is selected. -/
theorem present_instruction_by_position_witness :
    presentSystemContent 1 5 = presChunk1 ++ openingInstruction ++ presChunk2 :=
  (present_instruction_by_position 1 5).1 rfl

/-- Claim C5: both ANSWER-style handlers assemble their message sequence in
the claimed order — a system message whose text embeds the retrieved
knowledge (possibly `""`) before the slide context, then the prior session
turns, then the new user utterance as the final (user-role) message. -/
theorem answer_messages_order (p c t pk sc q : String) (h hist : List Turn) :
    answerMessages p c h t =
      ⟨"system", ChatContent.text (ansChunk1 ++ p ++ ansChunk2 ++ c ++ ansChunk3)⟩ ::
        (h.map turnToMsg ++ [⟨"user", ChatContent.text t⟩]) ∧
    (answerMessages p c h t).getLast? = some ⟨"user", ChatContent.text t⟩ ∧
    interactMessages pk sc hist q =
      ⟨"system", ChatContent.text (intChunk1 ++ pk ++ intChunk2 ++ sc ++ intChunk3)⟩ ::
        (hist.map turnToMsg ++ [⟨"user", ChatContent.text (qChunk1 ++ q ++ qChunk2)⟩]) ∧
    (interactMessages pk sc hist q).getLast? = some ⟨"user", ChatContent.text (qChunk1 ++ q ++ qChunk2)⟩ := by
  refine ⟨rfl, ?_, rfl, ?_⟩
  · exact getLast_cons_concat _ _ _
  · exact getLast_cons_concat _ _ _

/-- Claim C6: in the `/agent/speak` handler, whenever text generation
succeeded (or was bypassed for TTS_ONLY) and the ElevenLabs speech-synthesis
call fails, the whole request fails with the 500 error body; no success
response carrying only the text is returned. -/
theorem tts_failure_is_fatal (o : SpeakOracle) (req : SpeakRequest) (history : List Turn) (e s : String) :
    (req.type = "TTS_ONLY" → o.tts req.text = Except.error e →
      (agentSpeak o req history).response = SpeakResponse.error e) ∧
    (req.type = "PRESENT" →
      o.chatCompletion (presentMessages req.slideIndex req.totalSlides req.text req.image) = Except.ok s →
      o.tts s = Except.error e → (agentSpeak o req history).response = SpeakResponse.error e) ∧
    (req.type = "ANSWER" →
      o.chatCompletion (answerMessages (o.knowledge req.text) req.context history req.text) = Except.ok s →
      o.tts s = Except.error e → (agentSpeak o req history).response = SpeakResponse.error e) := by
  refine ⟨?_, ?_, ?_⟩
  · intro h1 h2
    simp [agentSpeak, h1, h2]
  · intro h1 h2 h3
    simp [agentSpeak, h1, h2, h3]
  · intro h1 h2 h3
    simp [agentSpeak, h1, h2, h3]

/-- Claim C6 witness: a TTS_ONLY request against a failing TTS oracle ends in
the 500 error body. -/
theorem tts_failure_is_fatal_witness :
    (agentSpeak ttsFailOracle ⟨"TTS_ONLY", "hi", "", 0, 0, ""⟩ []).response = SpeakResponse.error ("tts down") :=
  (tts_failure_is_fatal ttsFailOracle ⟨"TTS_ONLY", "hi", "", 0, 0, ""⟩ [] ("tts down") ("s")).1 rfl rfl

/-- Claim C7: a TTS_ONLY request leaves the conversation session unchanged,
issues no language-model call, and uses the supplied text verbatim as the
final script (it is both the text sent to TTS and the text of the success
body). -/
theorem tts_only_no_model_no_mutation (o : SpeakOracle) (req : SpeakRequest) (history : List Turn)
    (h : req.type = "TTS_ONLY") :
    (agentSpeak o req history).history = history ∧
    ExtCall.llm ∉ (agentSpeak o req history).calls ∧
    (∀ audio, o.tts req.text = Except.ok audio →
      (agentSpeak o req history).response = SpeakResponse.speech req.text audio) := by
  cases hts : o.tts req.text with
  | ok audio => simp [agentSpeak, h, hts]
  | error e => simp [agentSpeak, h, hts]

/-- Claim C7 witness: the theorem at a concrete TTS_ONLY request. -/
theorem tts_only_no_model_no_mutation_witness :
    (agentSpeak okOracle ⟨"TTS_ONLY", "Any questions?", "", 0, 0, ""⟩ []).history = [] ∧
    ExtCall.llm ∉ (agentSpeak okOracle ⟨"TTS_ONLY", "Any questions?", "", 0, 0, ""⟩ []).calls := by
  have h := tts_only_no_model_no_mutation okOracle ⟨"TTS_ONLY", "Any questions?", "", 0, 0, ""⟩ [] rfl
  exact ⟨h.1, h.2.1⟩

/-- Claim C8: a SHOULD_ASK or DECIDE_NEXT_MOVE request leaves the
conversation session unchanged, never reaches the speech-synthesis call,
and (when the classification call succeeds) returns the structured decision
directly: the `ask` boolean or the `action` tag. -/
theorem classification_no_tts_no_mutation (o : SpeakOracle) (req : SpeakRequest) (history : List Turn) :
    (req.type = "SHOULD_ASK" →
      (agentSpeak o req history).history = history ∧
      ExtCall.ttsCall ∉ (agentSpeak o req history).calls ∧
      ∀ b, o.shouldAskDecision = Except.ok b →
        (agentSpeak o req history).response = SpeakResponse.askJson b) ∧
    (req.type = "DECIDE_NEXT_MOVE" →
      (agentSpeak o req history).history = history ∧
      ExtCall.ttsCall ∉ (agentSpeak o req history).calls ∧
      ∀ a, o.nextMoveDecision = Except.ok a →
        (agentSpeak o req history).response = SpeakResponse.moveJson a) := by
  constructor
  · intro h1
    cases hd : o.shouldAskDecision with
    | ok b => simp [agentSpeak, h1, hd]
    | error e => simp [agentSpeak, h1, hd]
  · intro h1
    cases hd : o.nextMoveDecision with
    | ok a => simp [agentSpeak, h1, hd]
    | error e => simp [agentSpeak, h1, hd]

/-- Claim C8 witness: a concrete SHOULD_ASK request. -/
theorem classification_no_tts_no_mutation_witness :
    (agentSpeak okOracle ⟨"SHOULD_ASK", "t", "", 3, 5, ""⟩ []).history = [] ∧
    ExtCall.ttsCall ∉ (agentSpeak okOracle ⟨"SHOULD_ASK", "t", "", 3, 5, ""⟩ []).calls ∧
    (agentSpeak okOracle ⟨"SHOULD_ASK", "t", "", 3, 5, ""⟩ []).response = SpeakResponse.askJson true := by
  have h := (classification_no_tts_no_mutation okOracle ⟨"SHOULD_ASK", "t", "", 3, 5, ""⟩ []).1 rfl
  exact ⟨h.1, h.2.1, h.2.2 true rfl⟩

theorem tryModels_first_success (attempt : String → Except String String) (m c : String)
    (post : List String) (hm : attempt m = Except.ok c) :
    ∀ (pre : List String), (∀ p ∈ pre, ∃ e, attempt p = Except.error e) →
      ∀ (lastErr : Option String),
        tryModels attempt (pre ++ m :: post) lastErr = (Except.ok (c, m), pre ++ [m]) := by
  intro pre
  induction pre with
  | nil =>
    intro _ lastErr
    simp [tryModels, hm]
  | cons p ps ih =>
    intro hfail lastErr
    obtain ⟨e, he⟩ := hfail p (by simp)
    have hrec := ih (fun x hx => hfail x (by simp [hx])) (some e)
    simp [tryModels, he, hrec]

/-- Claim C9: the `callOpenAIChat` fallback helper tries the candidate
models in their listed order; the first success returns that completion
together with the model name used, with exactly the earlier candidates and
the successful one attempted (later candidates untried); when every
candidate fails, the error of the last candidate is thrown. -/
theorem model_fallback_order (attempt : String → Except String String) :
    (∀ pre m post c, candidateModels = pre ++ m :: post →
      (∀ p ∈ pre, ∃ e, attempt p = Except.error e) → attempt m = Except.ok c →
      callOpenAIChat true attempt = (Except.ok (c, m), pre ++ [m])) ∧
    (∀ e1 e2 e3, attempt ("gpt-4o-mini") = Except.error e1 →
      attempt ("gpt-4o") = Except.error e2 →
      attempt ("gpt-3.5-turbo") = Except.error e3 →
      callOpenAIChat true attempt = (Except.error e3, candidateModels)) := by
  constructor
  · intro pre m post c hsplit hfail hm
    have hdef : callOpenAIChat true attempt = tryModels attempt candidateModels none := rfl
    rw [hdef, hsplit]
    exact tryModels_first_success attempt m c post hm pre hfail none
  · intro e1 e2 e3 h1 h2 h3
    simp [callOpenAIChat, candidateModels, tryModels, h1, h2, h3]

/-- Claim C9 witness: with the first candidate rate-limited and the second
succeeding, the helper returns the second model and never attempts the
third. -/
theorem model_fallback_order_witness :
    callOpenAIChat true flakyAttempt = (Except.ok (("hello"), ("gpt-4o")), ["gpt-4o-mini"] ++ [("gpt-4o")]) :=
  (model_fallback_order flakyAttempt).1 ["gpt-4o-mini"] ("gpt-4o") ["gpt-3.5-turbo"] ("hello") rfl
    (by
      intro p hp
      simp at hp
      subst hp
      exact ⟨("rate limited"), rfl⟩)
    rfl

/-- Claim C10: error atomicity of the conversation history for answer-style
requests: if the language-model call throws, the history after the request
is exactly the history before it, in both the part_001 ANSWER path (where
the model call precedes the memory save) and the server.js `/agent/interact`
path (where both the user turn and the assistant turn are appended only
after the model call succeeds). -/
theorem model_failure_preserves_history (o : SpeakOracle) (io : InteractOracle) (req : SpeakRequest)
    (history ihist : List Turn) (q sc e e2 : String)
    (h1 : req.type = "ANSWER")
    (h2 : o.chatCompletion (answerMessages (o.knowledge req.text) req.context history req.text) = Except.error e)
    (h3 : io.chat (interactMessages (io.knowledge q) sc ihist q) = Except.error e2) :
    (agentSpeak o req history).history = history ∧
    (agentSpeak o req history).response = SpeakResponse.error e ∧
    agentInteract io q sc ihist = (AgentResponse.failure e2, ihist) := by
  simp [agentSpeak, agentInteract, h1, h2, h3]

/-- Claim C10 witness: concrete failing-model oracles leave concrete
histories untouched. -/
theorem model_failure_preserves_history_witness :
    (agentSpeak chatFailOracle ⟨"ANSWER", "why?", "ctx", 0, 0, ""⟩ [⟨"assistant", "prev"⟩]).history = [⟨"assistant", "prev"⟩] ∧
    agentInteract chatFailInteractOracle ("why?") ("ctx") [] = (AgentResponse.failure ("model down"), []) := by
  have h := model_failure_preserves_history chatFailOracle chatFailInteractOracle
    ⟨"ANSWER", "why?", "ctx", 0, 0, ""⟩ [⟨"assistant", "prev"⟩] [] ("why?") ("ctx")
    ("model down") ("model down") rfl rfl rfl
  exact ⟨h.1, h.2.2⟩

end AvatarAgent
